import Mathlib

/-!
Verification development for the image-sorting PDF generator
(src/create_pdf_from_sorted_img.py).

The pipeline rasterizes a PDF into images, OCRs each image, extracts a
timestamp and a crop window from the OCR text, crops and rescales each
image to 700x300, sorts the (image, timestamp) pairs chronologically,
buckets them by a day-of-month week formula, and lays them out two per
row on synthesized PDF pages.

The external collaborators (pdf2image, pytesseract, cv2 raster ops,
reportlab canvas) are modelled through the data they hand to or receive
from the core: an OCR run is represented by the offsets and substrings
the two regular expressions produce on its text, a raster image by its
pixel dimensions, and the PDF canvas by the list of page descriptions
(heading plus positioned cells) that the code emits.  All arithmetic is
over Nat/Int exactly as the Python code computes it.
-/

/-- A normalized timestamp as produced by datetime.strptime: year, month,
day, hour, minute (the three accepted formats carry minute precision). -/
structure DateTime where
  year : Nat
  month : Nat
  day : Nat
  hour : Nat
  minute : Nat
deriving DecidableEq, Repr

/-- A sorted-pipeline entry: image identifier paired with its timestamp.
Mirrors the (filename, datetime_obj) tuples of image_data_list. -/
abbrev Entry := Nat × DateTime

/-- Chronological sort key.  Python compares datetime objects
field-lexicographically (year, month, day, hour, minute); this Nat
encoding is strictly monotone in that order for in-range fields
(month < 13, day < 32, hour < 24, minute < 60). -/
def dtKey (d : DateTime) : Nat :=
  (((d.year * 13 + d.month) * 32 + d.day) * 24 + d.hour) * 60 + d.minute

/-- Gregorian leap-year test, as datetime uses. -/
def isLeap (y : Nat) : Bool :=
  (y % 4 == 0 && y % 100 != 0) || y % 400 == 0

/-- Number of days in month m of year y (m in 1..12). -/
def daysInMonth (y m : Nat) : Nat :=
  if m = 2 then (if isLeap y then 29 else 28)
  else if m = 4 ∨ m = 6 ∨ m = 9 ∨ m = 11 then 30
  else 31

/-- Days in year y that precede month m. -/
def daysBeforeMonth (y : Nat) : Nat → Nat
  | 0 => 0
  | n + 1 => daysBeforeMonth y n + (if n = 0 then 0 else daysInMonth y n)

/-- One-based ordinal day of the year of a date. -/
def dayOfYear (d : DateTime) : Nat :=
  daysBeforeMonth d.year d.month + d.day

/-- Days elapsed since 0001-01-01 in the proleptic Gregorian calendar
(0001-01-01 itself maps to 0 and was a Monday, as in Python datetime). -/
def rataDie (d : DateTime) : Nat :=
  (d.year - 1) * 365 + (d.year - 1) / 4 - (d.year - 1) / 100
    + (d.year - 1) / 400 + (dayOfYear d - 1)

/-- Day of week with Sunday = 0, matching strftime %w. -/
def weekdaySun0 (d : DateTime) : Nat :=
  (rataDie d + 1) % 7

/-- Week of year as computed by strftime %U: all days before the first
Sunday of the year are week 0, and each Sunday starts a new week. -/
def strftimeU (d : DateTime) : Nat :=
  (dayOfYear d + 6 - weekdaySun0 d) / 7

/-- Day-of-month week index used for page membership, from
create_pdf line 214: (date.day - 1) // 7 + 1. -/
def weekIndex (d : DateTime) : Nat :=
  (d.day - 1) / 7 + 1

/-- Crop window selected from the character offset s of the timestamp
match and the offset e of the terminator match, following the
if/elif/elif/else chain of crop_img_n_get_date lines 130-148.  The pair
is the (top, bottom) row range handed to the numpy slice. -/
def cropWindow (s e : Nat) : Nat × Nat :=
  if s < 5 then (s, e + 900)
  else if 10 < s ∧ s < 45 then (s + 600, e + 1250)
  else if 50 ≤ s then (s + 700, e + 1200)
  else (s, e + 700)

/-- Height of the numpy slice img[a:b, :] on an image with h rows: numpy
clamps both bounds into [0, h] and yields an empty array when the
clamped range is empty, never raising. -/
def cropHeight (h : Nat) (win : Nat × Nat) : Nat :=
  min win.2 h - min win.1 h

/-- cv2.resize to destination size (dw, dh): returns the destination
dimensions (height, width) on any nonempty source and fails on an empty
source array (OpenCV asserts the source size is nonempty). -/
def cv2Resize (srcH srcW dh dw : Nat) : Option (Nat × Nat) :=
  if srcH = 0 ∨ srcW = 0 then none else some (dh, dw)

/-!
Timestamp normalization.  crop_img_n_get_date lines 113-120 run
datetime.strptime on the matched substring with, in order, the formats
"%m/%d/%y, %I:%M %p", "%d/%m/%y, %I:%M %p" and "%d/%m/%y, %H:%M",
each wrapped in try/except so that the first format that parses without
error wins and failure of all three raises.  The parsers below follow
strptime on these fixed formats: each numeric directive consumes one or
two digits (the following character in these formats is never a digit,
so greedy matching agrees with the regex backtracking strptime uses),
%y consumes exactly two digits and maps 00-68 to 2000-2068 and 69-99 to
1969-1999, %p matches AM/PM case-insensitively, the whole string must
be consumed, and the resulting day must fit the month as the datetime
constructor checks.
-/

/-- A compiled strptime directive, mirroring how _strptime.py turns the
format string into a matching program: a one-or-two-digit numeric field,
a literal character (given by its code point), or a case-insensitive
meridiem marker. -/
inductive FItem
  | num
  | lit (c : Nat)
  | mer12
deriving DecidableEq, Repr

/-- Read one or two leading decimal digits (code points), returning the
value, the number of digits consumed, and the rest.  In the two fixed
formats a numeric field is never followed by a digit literal, so this
greedy read agrees with the backtracking regex strptime compiles. -/
def readNumPlain : List Nat → Option (Nat × Nat × List Nat)
  | [] => none
  | c :: rest =>
    if 48 ≤ c ∧ c ≤ 57 then
      match rest with
      | c2 :: rest2 =>
        if 48 ≤ c2 ∧ c2 ≤ 57 then some ((c - 48) * 10 + (c2 - 48), 2, rest2)
        else some (c - 48, 1, rest)
      | [] => some (c - 48, 1, [])
    else none

/-- Consume a meridiem marker; the Bool is true for PM.  strptime
matches the %p directive case-insensitively (codes 65/97 = A/a,
77/109 = M/m, 80/112 = P/p). -/
def readMer : List Nat → Option (Bool × List Nat)
  | a :: b :: rest =>
    if (a = 65 ∨ a = 97) ∧ (b = 77 ∨ b = 109) then some (false, rest)
    else if (a = 80 ∨ a = 112) ∧ (b = 77 ∨ b = 109) then some (true, rest)
    else none
  | _ => none

/-- Run a directive sequence over the input, requiring the whole input
to be consumed (strptime raises on unconverted trailing data).
Numeric fields are accumulated most-recent-first; the Bool is the PM
flag left by a meridiem directive. -/
def runFmt : List FItem → List Nat → List (Nat × Nat) → Bool →
    Option (List (Nat × Nat) × Bool)
  | [], [], acc, pm => some (acc, pm)
  | [], _ :: _, _, _ => none
  | FItem.num :: ds, input, acc, pm =>
    match readNumPlain input with
    | none => none
    | some (v, c, rest) => runFmt ds rest ((v, c) :: acc) pm
  | FItem.lit c :: ds, input, acc, pm =>
    match input with
    | d :: rest => if d = c then runFmt ds rest acc pm else none
    | [] => none
  | FItem.mer12 :: ds, input, acc, _ =>
    match readMer input with
    | none => none
    | some (b, rest) => runFmt ds rest acc b

/-- Directive sequence shared by "%m/%d/%y, %I:%M %p" and
"%d/%m/%y, %I:%M %p" (codes 47 = slash, 44 = comma, 32 = space,
58 = colon). -/
def fmtClock12 : List FItem :=
  [FItem.num, FItem.lit 47, FItem.num, FItem.lit 47, FItem.num,
   FItem.lit 44, FItem.lit 32, FItem.num, FItem.lit 58, FItem.num,
   FItem.lit 32, FItem.mer12]

/-- Directive sequence of "%d/%m/%y, %H:%M". -/
def fmtClock24 : List FItem :=
  [FItem.num, FItem.lit 47, FItem.num, FItem.lit 47, FItem.num,
   FItem.lit 44, FItem.lit 32, FItem.num, FItem.lit 58, FItem.num]

/-- Expand a two-digit %y year the way strptime does: 0-68 become
2000-2068, 69-99 become 1969-1999. -/
def expandYear (yy : Nat) : Nat :=
  if yy ≤ 68 then 2000 + yy else 1900 + yy

/-- Code points of a string, the alphabet the strptime regex runs on. -/
def codes (s : String) : List Nat := s.data.map Char.toNat

/-- strptime with format "%m/%d/%y, %I:%M %p": month first, 12-hour
clock with meridiem.  Field ranges are those of the compiled regex
(%m in 1..12, %d in 1..31, %y exactly two digits, %I in 1..12,
%M in 0..59) and the day must fit the month, as the datetime
constructor checks. -/
def parseFmt1 (s : String) : Option DateTime :=
  match runFmt fmtClock12 (codes s) [] false with
  | some ([(mi, _), (hh, _), (yy, yc), (d, _), (m, _)], pm) =>
    if 1 ≤ m ∧ m ≤ 12 ∧ 1 ≤ d ∧ d ≤ 31 ∧ yc = 2 ∧ 1 ≤ hh ∧ hh ≤ 12 ∧
        mi ≤ 59 ∧ d ≤ daysInMonth (expandYear yy) m then
      some ⟨expandYear yy, m, d, hh % 12 + (if pm then 12 else 0), mi⟩
    else none
  | _ => none

/-- strptime with format "%d/%m/%y, %I:%M %p": day first, 12-hour
clock with meridiem. -/
def parseFmt2 (s : String) : Option DateTime :=
  match runFmt fmtClock12 (codes s) [] false with
  | some ([(mi, _), (hh, _), (yy, yc), (m, _), (d, _)], pm) =>
    if 1 ≤ d ∧ d ≤ 31 ∧ 1 ≤ m ∧ m ≤ 12 ∧ yc = 2 ∧ 1 ≤ hh ∧ hh ≤ 12 ∧
        mi ≤ 59 ∧ d ≤ daysInMonth (expandYear yy) m then
      some ⟨expandYear yy, m, d, hh % 12 + (if pm then 12 else 0), mi⟩
    else none
  | _ => none

/-- strptime with format "%d/%m/%y, %H:%M": day first, 24-hour clock,
no meridiem (%H in 0..23). -/
def parseFmt3 (s : String) : Option DateTime :=
  match runFmt fmtClock24 (codes s) [] false with
  | some ([(mi, _), (hh, _), (yy, yc), (m, _), (d, _)], _) =>
    if 1 ≤ d ∧ d ≤ 31 ∧ 1 ≤ m ∧ m ≤ 12 ∧ yc = 2 ∧ hh ≤ 23 ∧
        mi ≤ 59 ∧ d ≤ daysInMonth (expandYear yy) m then
      some ⟨expandYear yy, m, d, hh, mi⟩
    else none
  | _ => none

/-- Nested try/except of crop_img_n_get_date lines 114-120: format 1,
then on failure format 2, then on failure format 3; failure of the last
propagates as an uncaught ValueError. -/
def normalizeTimestamp (s : String) : Option DateTime :=
  match parseFmt1 s with
  | some dt => some dt
  | none =>
    match parseFmt2 s with
    | some dt => some dt
    | none => parseFmt3 s

/-!
Per-image processing, crop_img_n_get_date lines 89-154.  For each image
the code runs OCR and two regex searches on the resulting text; the
pipeline below represents one image by the outcome of those searches
(the matched timestamp substring with its character offset, the offset
of the terminator phrase) together with the pixel dimensions of the
raster, which is all the rest of the function consumes.  Failures follow
the Python control flow: a missing timestamp match makes line 126 call
.start on None (AttributeError), a timestamp that fails all three
formats lets the innermost strptime raise, a missing terminator match
makes line 127 raise, and an empty clamped crop makes cv2.resize
raise; any of these aborts the run.
-/

/-- What the code observes about one working-directory image: its index
in the directory listing, the first date_time_regex match (substring and
start offset) if any, the start offset of the first img_crop_end_regex
match if any, and the raster dimensions. -/
structure OcrInput where
  name : Nat
  tsMatch : Option (String × Nat)
  termMatch : Option Nat
  height : Nat
  width : Nat

/-- The uncaught Python exception that ends the run, by raising site. -/
inductive Err
  | noTimestamp       -- line 126, re.search returned None
  | parseFailure      -- line 120, strptime ValueError after all formats
  | terminatorNotFound  -- line 127, re.search returned None
  | emptyCrop         -- line 151, cv2.resize on an empty array
deriving DecidableEq, Repr

/-- One iteration of the loop of crop_img_n_get_date: extract and parse
the timestamp, locate the terminator, crop, resize, and return the
(image, timestamp) entry appended to image_data_list.  Events are
ordered as in the source: parsing (lines 111-123) happens before the
offset searches (126-127), which happen before crop and resize
(130-151). -/
def processImage (i : OcrInput) : Except Err Entry :=
  match i.tsMatch with
  | none => .error .noTimestamp
  | some (str, s) =>
    match normalizeTimestamp str with
    | none => .error .parseFailure
    | some dt =>
      match i.termMatch with
      | none => .error .terminatorNotFound
      | some e =>
        match cv2Resize (cropHeight i.height (cropWindow s e)) i.width 300 700 with
        | none => .error .emptyCrop
        | some _ => .ok (i.name, dt)

/-- The image loop: process every image in directory order, stopping at
the first uncaught exception. -/
def processAll : List OcrInput → Except Err (List Entry)
  | [] => .ok []
  | i :: rest =>
    match processImage i with
    | .error e => .error e
    | .ok ent =>
      match processAll rest with
      | .error e => .error e
      | .ok es => .ok (ent :: es)

/-- Insert an entry into a list ordered by timestamp, before any later
entry of equal key; together with sortByDate this is the standard
stable insertion sort, extensionally equal to the stable ascending
list.sort(key=lambda x: x[1]) of line 157. -/
def orderedInsertE (x : Entry) : List Entry → List Entry
  | [] => [x]
  | y :: ys => if dtKey x.2 ≤ dtKey y.2 then x :: y :: ys else y :: orderedInsertE x ys

/-- Stable ascending sort by timestamp, line 157. -/
def sortByDate : List Entry → List Entry
  | [] => []
  | x :: xs => orderedInsertE x (sortByDate xs)

/-- The sort order: timestamp ascending, no secondary key. -/
def entryLe (a b : Entry) : Prop := dtKey a.2 ≤ dtKey b.2

/-- crop_img_n_get_date, whole function: the processing loop followed by
the sort and the projections of lines 156-165, returning
(image_data_list, image_list, date_list). -/
def crop_img_n_get_date (inputs : List OcrInput) :
    Except Err (List Entry × List Nat × List DateTime) :=
  match processAll inputs with
  | .error e => .error e
  | .ok es =>
    let sorted := sortByDate es
    .ok (sorted, sorted.map Prod.fst, sorted.map Prod.snd)

/-!
Page layout, create_pdf lines 195-267.  A page description records the
heading drawn at (275, 800) and, per cell, the x position, the y of the
date label, the y of the image, the width/height passed to drawImage,
and the label text.  The PDF canvas itself is the external collaborator
consuming these values.
-/

/-- The y dimension PIL chooses in Image.thumbnail when fitting a w by h
image into a tw by th box along the width: floor or ceiling of tw*h/w,
whichever makes the resulting aspect ratio closest to w/h (ties and the
degenerate floor 0 give the floor; the result is at least 1).  The key
comparison abs(w/h - tw/fl) against abs(w/h - tw/ce) is done here by
cross-multiplying the exact rationals. -/
def roundAspectY (w h tw : Nat) : Nat :=
  let fl := tw * h / w
  let ce := if tw * h % w = 0 then fl else fl + 1
  let kf := ((w : Int) * fl - (tw : Int) * h).natAbs
  let kc := ((w : Int) * ce - (tw : Int) * h).natAbs
  max (if kf * ce ≤ kc * fl then fl else ce) 1

/-- The x dimension PIL chooses when fitting along the height: floor or
ceiling of th*w/h, minimizing abs(w/h - n/th); both keys share the
denominator h*th, so the numerators are compared directly. -/
def roundAspectX (w h th : Nat) : Nat :=
  let fl := th * w / h
  let ce := if th * w % h = 0 then fl else fl + 1
  let kf := ((w : Int) * th - (fl : Int) * h).natAbs
  let kc := ((w : Int) * th - (ce : Int) * h).natAbs
  max (if kf ≤ kc then fl else ce) 1

/-- PIL Image.thumbnail((tw, th)) on a w by h image: no-op when the
image already fits, otherwise shrink preserving aspect ratio, choosing
the branch on tw/th >= w/h exactly as the PIL source does.  Returns
(width, height). -/
def pilThumbnail (w h tw th : Nat) : Nat × Nat :=
  if w ≤ tw ∧ h ≤ th then (w, h)
  else if th * w ≤ tw * h then (roundAspectX w h th, th)
  else (tw, roundAspectY w h tw)

/-- Full month name for strftime %B (months 1..12). -/
def monthName : Nat → String
  | 1 => "January" | 2 => "February" | 3 => "March" | 4 => "April"
  | 5 => "May" | 6 => "June" | 7 => "July" | 8 => "August"
  | 9 => "September" | 10 => "October" | 11 => "November" | 12 => "December"
  | _ => ""

/-- Zero-padded two-digit field for strftime %d. -/
def pad2 (n : Nat) : String :=
  if n < 10 then "0" ++ toString n else toString n

/-- The cell label of line 249, strftime("%B %d, %Y"). -/
def fmtDate (d : DateTime) : String :=
  monthName d.month ++ " " ++ pad2 d.day ++ ", " ++ toString d.year

/-- One layout cell: positions handed to drawString/drawImage and the
width and height handed to drawImage. -/
structure Cell where
  x : Int
  labelY : Int
  imgY : Int
  imgW : Nat
  imgH : Nat
  label : String
deriving DecidableEq, Repr

/-- Cell for the member at position idx of a page, lines 236-264.  The
image opened from the working directory is the 700 by 300 output of the
normalization stage and is first shrunk in place by
img.thumbnail((220, 220)); drawImage then uses its resulting width and
height.  Even indices use x = 50 with y offset 65*idx, odd indices use
x = 350 with y offset 65*(idx-1); the label sits at y_pos minus the
offset and the image 100 units lower. -/
def mkCell (idx : Nat) (e : Entry) : Cell :=
  let x : Int := if idx % 2 = 0 then 50 else 50 + 300
  let yOff : Int := if idx % 2 = 0 then 65 * idx else 65 * ((idx : Int) - 1)
  let dims := pilThumbnail 700 300 220 220
  { x := x, labelY := 780 - yOff, imgY := 780 - (yOff + 100),
    imgW := dims.1, imgH := dims.2, label := fmtDate e.2 }

/-- One emitted page: the heading string and the cells in order. -/
structure Page where
  heading : String
  cells : List Cell
deriving DecidableEq, Repr

/-- First element of a Python list, None when the indexing l[0] would
raise. -/
def headOpt : List α → Option α
  | [] => none
  | a :: _ => some a

/-- Last element of a Python list, None when l[-1] would raise. -/
def lastOpt : List α → Option α
  | [] => none
  | [a] => some a
  | _ :: b :: bs => lastOpt (b :: bs)

/-- Python list.index: position of the first occurrence (total here;
in the code the searched value is always present). -/
def idxOf (a : Nat) : List Nat → Nat
  | [] => 0
  | b :: bs => if b = a then 0 else idxOf a bs + 1

/-- Members of the page for week number p, lines 214-223: filter the
sorted image_data_list by the day-of-month week index, look up the
positions of the first and the last filtered image path in image_list,
and take the inclusive slice of image_data_list between them.  None
models the IndexError of line 217 when the filtered list is empty. -/
def pageMembers (image_list : List Nat) (image_data_list : List Entry)
    (p : Nat) : Option (List Entry) :=
  let fl := image_data_list.filter (fun x => weekIndex x.2 == p)
  match headOpt fl, lastOpt fl with
  | some f, some l =>
    let si := idxOf f.1 image_list
    let ei := idxOf l.1 image_list
    some ((image_data_list.drop si).take (ei + 1 - si))
  | _, _ => none

/-- The page drawn in iteration i (week number p = i+1): heading
"Week p" at (275, 800) and one cell per member. -/
def createPage (image_list : List Nat) (image_data_list : List Entry)
    (p : Nat) : Option Page :=
  (pageMembers image_list image_data_list p).map fun mems =>
    { heading := "Week " ++ toString p,
      cells := mems.enum.map fun ie => mkCell ie.1 ie.2 }

/-- Emit the pages for the given week numbers in order, stopping at the
first failing week (the uncaught IndexError aborts the loop). -/
def buildPages (image_list : List Nat) (image_data_list : List Entry) :
    List Nat → Option (List Page)
  | [] => some []
  | p :: ps =>
    match createPage image_list image_data_list p with
    | none => none
    | some pg =>
      match buildPages image_list image_data_list ps with
      | none => none
      | some pgs => some (pg :: pgs)

/-- Number of distinct strftime("%U") week-of-year values in date_list,
lines 201-202: num_weeks = len(set(...)). -/
def distinctUCount (date_list : List DateTime) : Nat :=
  ((date_list.map strftimeU).dedup).length

/-- Number of distinct day-of-month week_index values in date_list (the
quantity the week buckets are keyed on). -/
def distinctWiCount (date_list : List DateTime) : Nat :=
  ((date_list.map weekIndex).dedup).length

/-- create_pdf, lines 195-267: loop i over range(num_weeks) emitting the
page of week i+1; one page description per completed iteration. -/
def create_pdf (image_list : List Nat) (image_data_list : List Entry)
    (date_list : List DateTime) : Option (List Page) :=
  buildPages image_list image_data_list
    ((List.range (distinctUCount date_list)).map (· + 1))

/-- main_caller, minus the filesystem glue: run the crop-and-date stage,
then create_pdf on its three outputs.  Err carries the exception that
aborted the run; the IndexError inside create_pdf is mapped like the
others. -/
inductive RunErr
  | stage1 (e : Err)
  | indexError
deriving DecidableEq, Repr

/-- End-to-end pipeline result: the emitted pages, or the uncaught
exception. -/
def main_pipeline (inputs : List OcrInput) : Except RunErr (List Page) :=
  match crop_img_n_get_date inputs with
  | .error e => .error (.stage1 e)
  | .ok (s, il, dl) =>
    match create_pdf il s dl with
    | some pgs => .ok pgs
    | none => .error .indexError

/-- An image on which extraction cannot succeed: its OCR text has no
timestamp-pattern match, or the matched substring fails all three
formats, or the terminator phrase is absent. -/
def badInput (i : OcrInput) : Prop :=
  i.tsMatch = none ∨
  (∃ str s, i.tsMatch = some (str, s) ∧ normalizeTimestamp str = none) ∨
  i.termMatch = none

/-!
Spec-side description of page membership, for comparison with the
index-based computation of the code.  The spec says: a bucket contains
the inclusive slice of the chronologically sorted timeline between the
first and the last element whose week_index equals the target value.
These definitions follow that wording directly (first/last position of
the predicate in the list itself, no detour through image identifiers).
-/

/-- Position of the first element satisfying the predicate. -/
def firstIdxP (P : Entry → Bool) : List Entry → Option Nat
  | [] => none
  | x :: xs => if P x then some 0 else (firstIdxP P xs).map (· + 1)

/-- Position of the last element satisfying the predicate. -/
def lastIdxP (P : Entry → Bool) : List Entry → Option Nat
  | [] => none
  | x :: xs =>
    match lastIdxP P xs with
    | some j => some (j + 1)
    | none => if P x then some 0 else none

/-- Page membership as the spec words it: the inclusive slice of the
sorted timeline from the first to the last element whose week_index
equals the target value, when such an element exists. -/
def pageMembersSpec (s : List Entry) (p : Nat) : Option (List Entry) :=
  match firstIdxP (fun x => weekIndex x.2 == p) s,
      lastIdxP (fun x => weekIndex x.2 == p) s with
  | some fi, some li => some ((s.drop fi).take (li + 1 - fi))
  | _, _ => none

/-!
Concrete data used by counterexamples and witnesses.  All dates are in
2022: January 1, 2022 was a Saturday, so strftime %U gives week 5 for
both January 31 (Monday) and February 1 (Tuesday), and week 6 for
February 8, while the day-of-month week index gives 5, 1 and 2.
-/

/-- January 25, 2022, 10:00 (%U week 4, day-of-month week index 4). -/
def dtJan25 : DateTime := ⟨2022, 1, 25, 10, 0⟩

/-- January 31, 2022, 14:00 (%U week 5, day-of-month week index 5). -/
def dtJan31 : DateTime := ⟨2022, 1, 31, 14, 0⟩

/-- February 1, 2022, 10:00 (%U week 5, day-of-month week index 1). -/
def dtFeb1 : DateTime := ⟨2022, 2, 1, 10, 0⟩

/-- February 8, 2022, 10:00 (%U week 6, day-of-month week index 2). -/
def dtFeb8 : DateTime := ⟨2022, 2, 8, 10, 0⟩

/-- February 1, 2022, 9:59 — one minute before dtFeb1. -/
def dtFeb1m : DateTime := ⟨2022, 2, 1, 9, 59⟩

/-- Sorted timeline with two distinct %U values (5 and 6) but three
distinct day-of-month week index values (5, 1, 2). -/
def tlC1 : List Entry := [(0, dtJan31), (1, dtFeb1), (2, dtFeb8)]

/-- Sorted timeline with two distinct %U values (4 and 5) but no entry
of day-of-month week index 2, so the second loop iteration indexes an
empty list. -/
def tlC10 : List Entry := [(0, dtJan25), (1, dtFeb1)]

-- sanity checks (removed from claims; plain examples)
example : pilThumbnail 700 300 220 220 = (220, 94) := by decide
example : distinctUCount (tlC1.map Prod.snd) = 2 := by decide
example : distinctWiCount (tlC1.map Prod.snd) = 3 := by decide
example : (create_pdf (tlC1.map Prod.fst) tlC1 (tlC1.map Prod.snd)).map List.length
    = some 2 := by decide
example : create_pdf (tlC10.map Prod.fst) tlC10 (tlC10.map Prod.snd) = none := by decide
example : pageMembers (tlC10.map Prod.fst) tlC10 2 = none := by decide
example : pageMembers (tlC1.map Prod.fst) tlC1 1 = some [(1, dtFeb1)] := by decide
example : pageMembersSpec tlC1 1 = some [(1, dtFeb1)] := by decide
example : fmtDate dtFeb1 = "February 01, 2022" := by decide
example : sortByDate [(0, dtFeb1), (1, dtFeb1), (2, dtJan31)]
    = [(2, dtJan31), (0, dtFeb1), (1, dtFeb1)] := by decide
example : normalizeTimestamp "31/01/22, 14:00" = some ⟨2022, 1, 31, 14, 0⟩ := by decide

/-!
Helper lemmas.
-/

/-- Every completed iteration of the page loop emits exactly one page. -/
theorem buildPages_length {il : List Nat} {s : List Entry} :
    ∀ {ps : List Nat} {pgs : List Page},
    buildPages il s ps = some pgs → pgs.length = ps.length := by
  intro ps
  induction ps with
  | nil =>
    intro pgs h
    simp [buildPages] at h
    simp [← h]
  | cons p ps ih =>
    intro pgs h
    unfold buildPages at h
    cases hc : createPage il s p with
    | none => rw [hc] at h; exact absurd h (by simp)
    | some pg =>
      rw [hc] at h
      cases hb : buildPages il s ps with
      | none => rw [hb] at h; exact absurd h (by simp)
      | some pgs2 =>
        rw [hb] at h
        cases h
        simp [ih hb]

/-!
Claim theorems.
-/

/-- Claim C1, counterexample.  On the sorted timeline January 31,
February 1, February 8 (2022), create_pdf completes and emits 2 pages:
this equals the number of distinct strftime("%U") values (January 31
and February 1 fall in the same calendar week 5), not the number of
distinct day-of-month week_index values, which is 3 — the claim asserts
the opposite correspondence. -/
theorem c1_counterexample :
    (create_pdf (tlC1.map Prod.fst) tlC1 (tlC1.map Prod.snd)).map List.length
      = some 2 ∧
    distinctWiCount (tlC1.map Prod.snd) = 3 ∧
    distinctUCount (tlC1.map Prod.snd) = 2 ∧
    ¬ (create_pdf (tlC1.map Prod.fst) tlC1 (tlC1.map Prod.snd)).map List.length
      = some (distinctWiCount (tlC1.map Prod.snd)) := by decide

/-- Claim C1, amended: whenever create_pdf completes without error, the
number of pages it emits equals the number of distinct strftime("%U")
calendar-week values across date_list — not the number of distinct
day-of-month week_index values, which can differ. -/
theorem c1_pages_eq_distinct_U (il : List Nat) (s : List Entry)
    (dl : List DateTime) (h : (create_pdf il s dl).isSome = true) :
    (create_pdf il s dl).map List.length = some (distinctUCount dl) := by
  cases hp : create_pdf il s dl with
  | none => rw [hp] at h; exact absurd h (by simp)
  | some pgs =>
    have hl : pgs.length = ((List.range (distinctUCount dl)).map (· + 1)).length :=
      buildPages_length hp
    simp only [List.length_map, List.length_range] at hl
    simp [hl]

/-- Claim C1, witness: on the concrete timeline the page count computed
through the theorem matches the distinct %U count (2). -/
theorem c1_witness :
    (create_pdf (tlC1.map Prod.fst) tlC1 (tlC1.map Prod.snd)).map List.length
      = some (distinctUCount (tlC1.map Prod.snd)) :=
  c1_pages_eq_distinct_U (tlC1.map Prod.fst) tlC1 (tlC1.map Prod.snd) (by decide)

/-- Claim C10: on the sorted timeline January 25 / February 1, 2022,
there are two distinct %U calendar weeks, so the loop runs two
iterations, but no entry has day-of-month week_index 2: the week-2
filter is empty, indexing its first element fails, and no PDF is
produced. -/
theorem c10_empty_week_aborts :
    distinctUCount (tlC10.map Prod.snd) = 2 ∧
    tlC10.filter (fun x => weekIndex x.2 == 2) = [] ∧
    pageMembers (tlC10.map Prod.fst) tlC10 2 = none ∧
    create_pdf (tlC10.map Prod.fst) tlC10 (tlC10.map Prod.snd) = none := by decide

/-- Claim C3: the crop window is chosen by the four mutually exclusive
offset ranges on the timestamp offset s (with terminator offset e), and
the boundary offsets route as the spec states: 4 to the first branch,
5, 10 and 49 to the else branch, 11 to the second, 50 to the third. -/
theorem c3_crop_branches : ∀ s e : Nat,
    (s < 5 → cropWindow s e = (s, e + 900)) ∧
    (10 < s ∧ s < 45 → cropWindow s e = (s + 600, e + 1250)) ∧
    (50 ≤ s → cropWindow s e = (s + 700, e + 1200)) ∧
    ((5 ≤ s ∧ s ≤ 10) ∨ (45 ≤ s ∧ s < 50) → cropWindow s e = (s, e + 700)) ∧
    cropWindow 4 e = (4, e + 900) ∧
    cropWindow 5 e = (5, e + 700) ∧
    cropWindow 10 e = (10, e + 700) ∧
    cropWindow 11 e = (611, e + 1250) ∧
    cropWindow 49 e = (49, e + 700) ∧
    cropWindow 50 e = (750, e + 1200) := by
  intro s e
  refine ⟨?_, ?_, ?_, ?_, ?_, ?_, ?_, ?_, ?_, ?_⟩ <;>
    (try intro h) <;>
    simp only [cropWindow] <;>
    split_ifs <;>
    first | rfl | (exfalso; omega)

/-- Claim C3, witness: the branch characterization evaluated at the
concrete boundary offset 4 with terminator offset 0. -/
theorem c3_witness : cropWindow 4 0 = (4, 0 + 900) :=
  (c3_crop_branches 4 0).1 (by decide)

/-- Claim C4: normalization tries the three strptime formats in strict
order — month-first 12-hour, day-first 12-hour, day-first 24-hour —
and the first that parses wins; "31/01/22, 14:00" fails formats 1 and 2
and parses via format 3, while "13/13/22, 25:00" fails all three. -/
theorem c4_parse_order :
    (∀ s dt, parseFmt1 s = some dt → normalizeTimestamp s = some dt) ∧
    (∀ s dt, parseFmt1 s = none → parseFmt2 s = some dt →
      normalizeTimestamp s = some dt) ∧
    (∀ s, parseFmt1 s = none → parseFmt2 s = none →
      normalizeTimestamp s = parseFmt3 s) ∧
    parseFmt1 "31/01/22, 14:00" = none ∧
    parseFmt2 "31/01/22, 14:00" = none ∧
    normalizeTimestamp "31/01/22, 14:00" = some ⟨2022, 1, 31, 14, 0⟩ ∧
    normalizeTimestamp "13/13/22, 25:00" = none := by
  refine ⟨?_, ?_, ?_, by decide, by decide, by decide, by decide⟩
  · intro s dt h1
    simp [normalizeTimestamp, h1]
  · intro s dt h1 h2
    simp [normalizeTimestamp, h1, h2]
  · intro s h1 h2
    simp [normalizeTimestamp, h1, h2]

/-- Claim C4, witness: the ordering applied at a month-first input that
format 1 accepts. -/
theorem c4_witness :
    normalizeTimestamp "01/02/22, 1:00 PM" = some ⟨2022, 1, 2, 13, 0⟩ :=
  c4_parse_order.1 "01/02/22, 1:00 PM" ⟨2022, 1, 2, 13, 0⟩ (by decide)

/-- Claim C2, counterexample.  With three members the third cell
(index 2) is drawn at label y 650, which is 130 units below the top row
at 780, not 65 as claimed: the code offsets by 65 times the member
index (65*2), not 65 times the pair index. -/
theorem c2_counterexample :
    (mkCell 2 (2, dtFeb8)).labelY = 780 - 130 ∧
    ¬ (mkCell 2 (2, dtFeb8)).labelY = 780 - 65 := by decide

/-- Claim C2, amended: even-indexed members go to the left column at
x = 50 and odd-indexed to the right column at x = 350 (fixed x + 300),
and the vertical position descends by 130 units per pair index (the
code advances the offset 65*idx by two member indices per row); so with
three members of dates D1 < D2 < D3, cell 0 is left top, cell 1 right
top, and cell 2 left exactly 130 units below the top row. -/
theorem c2_layout : ∀ (idx : Nat) (e : Entry),
    ((mkCell idx e).x = if idx % 2 = 0 then (50 : Int) else 350) ∧
    (mkCell idx e).labelY = 780 - 130 * ((idx / 2 : Nat) : Int) ∧
    (mkCell 0 e).x = 50 ∧ (mkCell 0 e).labelY = 780 ∧
    (mkCell 1 e).x = 350 ∧ (mkCell 1 e).labelY = 780 ∧
    (mkCell 2 e).x = 50 ∧ (mkCell 2 e).labelY = 780 - 130 := by
  intro idx e
  have hx : ∀ j : Nat, (mkCell j e).x = if j % 2 = 0 then (50 : Int) else 350 := by
    intro j
    simp [mkCell]
  have hy : ∀ j : Nat, (mkCell j e).labelY = 780 - 130 * ((j / 2 : Nat) : Int) := by
    intro j
    rcases Nat.mod_two_eq_zero_or_one j with h | h <;>
      simp only [mkCell, h] <;> norm_num <;> omega
  exact ⟨hx idx, hy idx, by simpa using hx 0, by simpa using hy 0,
    by simpa using hx 1, by simpa using hy 1,
    by simpa using hx 2, by simpa using hy 2⟩

/-- Claim C8, counterexample.  The cell image is not drawn at the
700 by 300 post-normalization size: create_pdf first shrinks the opened
image with img.thumbnail((220, 220)), so drawImage receives width 220
and height 94. -/
theorem c8_counterexample :
    (mkCell 0 (0, dtFeb1)).imgW = 220 ∧
    ¬ (mkCell 0 (0, dtFeb1)).imgW = 700 ∧
    (mkCell 0 (0, dtFeb1)).imgH = 94 ∧
    ¬ (mkCell 0 (0, dtFeb1)).imgH = 300 := by decide

/-- Claim C8, amended: every layout cell draws its image at the
dimensions obtained by shrinking the 700 by 300 normalized thumbnail to
fit within 220 by 220 preserving aspect ratio — 220 by 94 — and renders
the "Month Day, Year" date label 100 units above the image y at the
cell x. -/
theorem c8_cell_rendering : ∀ (idx : Nat) (e : Entry),
    (mkCell idx e).imgW = 220 ∧ (mkCell idx e).imgH = 94 ∧
    (mkCell idx e).labelY = (mkCell idx e).imgY + 100 ∧
    (mkCell idx e).label = fmtDate e.2 ∧
    pilThumbnail 700 300 220 220 = (220, 94) ∧
    fmtDate dtFeb1 = "February 01, 2022" := by
  intro idx e
  refine ⟨?_, ?_, ?_, ?_, by decide, by decide⟩ <;>
    simp [mkCell, pilThumbnail, roundAspectY]
  ring

/-- Claim C7, counterexample.  A window that lies entirely beyond the
image extent is clamped to an empty slice, on which the resize step
fails instead of producing a 700 by 300 image: on a 100-row image with
timestamp offset 11 and terminator offset 0 the window is rows 611 to
1250, the clamped crop is empty, and cv2.resize errors. -/
theorem c7_counterexample :
    cropWindow 11 0 = (611, 1250) ∧
    cropHeight 100 (cropWindow 11 0) = 0 ∧
    cv2Resize (cropHeight 100 (cropWindow 11 0)) 700 300 700 = none := by decide

/-- Claim C7, amended: the crop step clamps every computed window to the
image bounds without erroring (the clamped height never exceeds the
image height), and whenever the clamped window is nonempty — in
particular whenever the window start lies inside the image — the
cropped region is rescaled to exactly 700 by 300 regardless of aspect
ratio; a window entirely beyond the image extent instead makes the
resize step fail. -/
theorem c7_crop_clamp_resize : ∀ (imgH imgW s e : Nat), 0 < imgW →
    min (cropWindow s e).1 imgH < min (cropWindow s e).2 imgH →
    cropHeight imgH (cropWindow s e) ≤ imgH ∧
    cv2Resize (cropHeight imgH (cropWindow s e)) imgW 300 700 = some (300, 700) := by
  intro imgH imgW s e hw hne
  constructor
  · simp only [cropHeight]
    omega
  · have hpos : 0 < cropHeight imgH (cropWindow s e) := by
      simp only [cropHeight]
      omega
    rw [cv2Resize, if_neg]
    omega

/-- Claim C7, witness: a 2000-row image with timestamp offset 4 and
terminator offset 0 gives window rows 4 to 900, clamps within bounds
and resizes to 700 by 300. -/
theorem c7_witness :
    cropHeight 2000 (cropWindow 4 0) ≤ 2000 ∧
    cv2Resize (cropHeight 2000 (cropWindow 4 0)) 700 300 700 = some (300, 700) :=
  c7_crop_clamp_resize 2000 700 4 0 (by decide) (by decide)

/-- Processing an image with no timestamp match, an unparseable
timestamp, or no terminator raises the corresponding exception. -/
theorem processImage_err_of_bad (i : OcrInput) (h : badInput i) :
    ∃ e, processImage i = Except.error e := by
  cases hts : i.tsMatch with
  | none => exact ⟨.noTimestamp, by simp [processImage, hts]⟩
  | some p =>
    obtain ⟨str, s⟩ := p
    cases hn : normalizeTimestamp str with
    | none => exact ⟨.parseFailure, by simp [processImage, hts, hn]⟩
    | some dt =>
      cases hterm : i.termMatch with
      | none => exact ⟨.terminatorNotFound, by simp [processImage, hts, hn, hterm]⟩
      | some e0 =>
        exfalso
        rcases h with h | ⟨str2, s2, hm, hn2⟩ | h
        · rw [hts] at h; cases h
        · rw [hts] at hm; cases hm; rw [hn] at hn2; cases hn2
        · rw [hterm] at h; cases h

/-- The image loop stops with an exception whenever any image in the
directory is a bad input. -/
theorem processAll_err_of_bad :
    ∀ inputs : List OcrInput, (∃ i ∈ inputs, badInput i) →
    ∃ e, processAll inputs = Except.error e := by
  intro inputs
  induction inputs with
  | nil =>
    rintro ⟨j, hj, _⟩
    cases hj
  | cons i rest ih =>
    rintro ⟨j, hj, hbad⟩
    rcases List.mem_cons.mp hj with rfl | hjr
    · obtain ⟨e, he⟩ := processImage_err_of_bad j hbad
      exact ⟨e, by simp [processAll, he]⟩
    · cases hpi : processImage i with
      | error e => exact ⟨e, by simp [processAll, hpi]⟩
      | ok ent =>
        obtain ⟨e, he⟩ := ih ⟨j, hjr, hbad⟩
        exact ⟨e, by simp [processAll, hpi, he]⟩

/-- Claim C5: if any image has no timestamp-pattern match, or no
terminator phrase, or a matched substring failing all three parse
formats, the whole run aborts with that error: the pipeline returns no
pages at all, so the offending image is not skipped and no partial
output is produced for the remaining images. -/
theorem c5_bad_image_aborts_run (inputs : List OcrInput)
    (h : ∃ i ∈ inputs, badInput i) :
    ∃ e, main_pipeline inputs = Except.error (RunErr.stage1 e) := by
  obtain ⟨e, he⟩ := processAll_err_of_bad inputs h
  exact ⟨e, by simp [main_pipeline, crop_img_n_get_date, he]⟩

/-- Claim C5, witness: a single image whose OCR text has no timestamp
match aborts the pipeline. -/
theorem c5_witness :
    ∃ e, main_pipeline [⟨0, none, some 0, 1000, 700⟩] =
      Except.error (RunErr.stage1 e) :=
  c5_bad_image_aborts_run [⟨0, none, some 0, 1000, 700⟩]
    ⟨⟨0, none, some 0, 1000, 700⟩, by simp, Or.inl rfl⟩

/-- Inserting into a list permutes consing onto it. -/
theorem orderedInsertE_perm (x : Entry) :
    ∀ l, List.Perm (orderedInsertE x l) (x :: l) := by
  intro l
  induction l with
  | nil => exact List.Perm.refl _
  | cons y ys ih =>
    simp only [orderedInsertE]
    split_ifs with h
    · exact List.Perm.refl _
    · exact (ih.cons y).trans (List.Perm.swap x y ys)

/-- Inserting into a timestamp-ordered list keeps it ordered. -/
theorem orderedInsertE_pairwise (x : Entry) :
    ∀ l, l.Pairwise entryLe → (orderedInsertE x l).Pairwise entryLe := by
  intro l
  induction l with
  | nil => intro _; exact List.pairwise_cons.mpr ⟨by simp, List.Pairwise.nil⟩
  | cons y ys ih =>
    intro hp
    rcases List.pairwise_cons.mp hp with ⟨hy, hys⟩
    simp only [orderedInsertE]
    split_ifs with h
    · refine List.pairwise_cons.mpr ⟨?_, hp⟩
      intro z hz
      rcases List.mem_cons.mp hz with rfl | hzys
      · exact h
      · exact le_trans h (hy z hzys)
    · refine List.pairwise_cons.mpr ⟨?_, ih hys⟩
      intro z hz
      have hz2 : z ∈ x :: ys := (orderedInsertE_perm x ys).mem_iff.mp hz
      rcases List.mem_cons.mp hz2 with rfl | hzys
      · exact le_of_not_le h
      · exact hy z hzys

/-- Inserting an entry of key k prepends it to the key-k subsequence:
every element the insertion walks past has a strictly smaller key. -/
theorem orderedInsertE_filter_eq (x : Entry) (k : Nat) (hk : dtKey x.2 = k) :
    ∀ l, (orderedInsertE x l).filter (fun y => dtKey y.2 == k)
      = x :: l.filter (fun y => dtKey y.2 == k) := by
  intro l
  induction l with
  | nil => simp [orderedInsertE, hk]
  | cons y ys ih =>
    simp only [orderedInsertE]
    split_ifs with h
    · simp [List.filter_cons, hk]
    · have hy : ¬ (dtKey y.2 = k) := by omega
      simp only [List.filter_cons]
      simp [hy, ih]

/-- Inserting an entry of a different key leaves the key-k subsequence
unchanged. -/
theorem orderedInsertE_filter_ne (x : Entry) (k : Nat) (hk : ¬ dtKey x.2 = k) :
    ∀ l, (orderedInsertE x l).filter (fun y => dtKey y.2 == k)
      = l.filter (fun y => dtKey y.2 == k) := by
  intro l
  induction l with
  | nil => simp [orderedInsertE, hk]
  | cons y ys ih =>
    simp only [orderedInsertE]
    split_ifs with h
    · simp [List.filter_cons, hk]
    · simp only [List.filter_cons]
      simp [ih]

/-- The sort output is ordered by timestamp. -/
theorem sortByDate_pairwise : ∀ l, (sortByDate l).Pairwise entryLe := by
  intro l
  induction l with
  | nil => exact List.Pairwise.nil
  | cons x xs ih => exact orderedInsertE_pairwise x (sortByDate xs) ih

/-- The sort output is a permutation of the input. -/
theorem sortByDate_perm : ∀ l, List.Perm (sortByDate l) l := by
  intro l
  induction l with
  | nil => exact List.Perm.refl _
  | cons x xs ih => exact (orderedInsertE_perm x (sortByDate xs)).trans (ih.cons x)

/-- Stability: for every key, the entries of that key appear in the
sort output in their original relative order. -/
theorem sortByDate_stable : ∀ (l : List Entry) (k : Nat),
    (sortByDate l).filter (fun y => dtKey y.2 == k)
      = l.filter (fun y => dtKey y.2 == k) := by
  intro l
  induction l with
  | nil => intro k; rfl
  | cons x xs ih =>
    intro k
    by_cases hk : dtKey x.2 = k
    · rw [show sortByDate (x :: xs) = orderedInsertE x (sortByDate xs) from rfl,
        orderedInsertE_filter_eq x k hk, ih k]
      simp [List.filter_cons, hk]
    · rw [show sortByDate (x :: xs) = orderedInsertE x (sortByDate xs) from rfl,
        orderedInsertE_filter_ne x k hk, ih k]
      simp [List.filter_cons, hk]

/-- An empty list is exactly the one without a first element. -/
theorem headOpt_eq_none_iff : ∀ (l : List Entry), headOpt l = none ↔ l = []
  | [] => by simp [headOpt]
  | _ :: _ => by simp [headOpt]

/-- An empty list is exactly the one without a last element. -/
theorem lastOpt_eq_none_iff : ∀ (l : List Entry), lastOpt l = none ↔ l = []
  | [] => by simp [lastOpt]
  | [_] => by simp [lastOpt]
  | a :: b :: bs => by
    rw [show lastOpt (a :: b :: bs) = lastOpt (b :: bs) from rfl]
    simp [lastOpt_eq_none_iff (b :: bs)]

/-- The last element belongs to the list. -/
theorem lastOpt_mem : ∀ (l : List Entry) (x : Entry), lastOpt l = some x → x ∈ l
  | [], _, h => by cases h
  | [a], x, h => by
    simp only [lastOpt, Option.some_inj] at h
    subst h
    exact List.mem_singleton_self a
  | a :: b :: bs, x, h =>
    List.mem_cons_of_mem a (lastOpt_mem (b :: bs) x h)

/-- The first element belongs to the list. -/
theorem headOpt_mem : ∀ (l : List Entry) (x : Entry), headOpt l = some x → x ∈ l
  | [], _, h => by cases h
  | a :: as, x, h => by
    simp only [headOpt, Option.some_inj] at h
    subst h
    exact List.mem_cons_self a as

/-- A list has no first match exactly when its filtered form is empty. -/
theorem firstIdxP_eq_none_iff (P : Entry → Bool) :
    ∀ l, firstIdxP P l = none ↔ l.filter P = []
  | [] => by simp [firstIdxP]
  | x :: xs => by
    by_cases h : P x
    · simp [firstIdxP, h, List.filter_cons]
    · simp [firstIdxP, h, List.filter_cons, firstIdxP_eq_none_iff P xs]

/-- A list has no last match exactly when its filtered form is empty. -/
theorem lastIdxP_eq_none_iff (P : Entry → Bool) :
    ∀ l, lastIdxP P l = none ↔ l.filter P = []
  | [] => by simp [lastIdxP]
  | x :: xs => by
    have ih := lastIdxP_eq_none_iff P xs
    cases hl : lastIdxP P xs with
    | some j =>
      have hne : xs.filter P ≠ [] := by
        intro hc
        rw [← ih, hl] at hc
        cases hc
      simp only [lastIdxP, hl, List.filter_cons]
      constructor
      · intro hc; cases hc
      · intro hc
        split_ifs at hc
        exact absurd hc hne
    | none =>
      have hfe : xs.filter P = [] := ih.mp hl
      simp only [lastIdxP, hl, List.filter_cons, hfe]
      split_ifs with h
      · constructor
        · intro hc; cases hc
        · intro hc; cases hc
      · simp

/-- With pairwise-distinct image identifiers, the image_list position of
the first filtered image is the position of the first element matching
the predicate. -/
theorem firstIdxP_of_headOpt_filter (P : Entry → Bool) :
    ∀ (l : List Entry) (f : Entry),
    headOpt (l.filter P) = some f → (l.map Prod.fst).Nodup →
    firstIdxP P l = some (idxOf f.1 (l.map Prod.fst))
  | [], f, h, _ => by simp [List.filter_nil, headOpt] at h
  | x :: xs, f, h, hnd => by
    have hnd2 : (xs.map Prod.fst).Nodup := by
      rw [List.map_cons, List.nodup_cons] at hnd
      exact hnd.2
    have hxnot : x.1 ∉ xs.map Prod.fst := by
      rw [List.map_cons, List.nodup_cons] at hnd
      exact hnd.1
    by_cases hp : P x
    · rw [List.filter_cons_of_pos hp] at h
      simp only [headOpt, Option.some_inj] at h
      subst h
      simp [firstIdxP, hp, idxOf]
    · rw [List.filter_cons_of_neg (by simpa using hp)] at h
      have ih := firstIdxP_of_headOpt_filter P xs f h hnd2
      have hfm : f.1 ∈ xs.map Prod.fst :=
        List.mem_map_of_mem Prod.fst
          (List.mem_of_mem_filter (headOpt_mem (xs.filter P) f h))
      have hne : ¬ x.1 = f.1 := fun hc => hxnot (hc ▸ hfm)
      simp [firstIdxP, hp, ih, idxOf, hne]

/-- With pairwise-distinct image identifiers, the image_list position of
the last filtered image is the position of the last element matching
the predicate. -/
theorem lastIdxP_of_lastOpt_filter (P : Entry → Bool) :
    ∀ (l : List Entry) (g : Entry),
    lastOpt (l.filter P) = some g → (l.map Prod.fst).Nodup →
    lastIdxP P l = some (idxOf g.1 (l.map Prod.fst))
  | [], g, h, _ => by simp [List.filter_nil, lastOpt] at h
  | x :: xs, g, h, hnd => by
    have hnd2 : (xs.map Prod.fst).Nodup := by
      rw [List.map_cons, List.nodup_cons] at hnd
      exact hnd.2
    have hxnot : x.1 ∉ xs.map Prod.fst := by
      rw [List.map_cons, List.nodup_cons] at hnd
      exact hnd.1
    cases hfx : xs.filter P with
    | nil =>
      have hln : lastIdxP P xs = none := (lastIdxP_eq_none_iff P xs).mpr hfx
      by_cases hp : P x
      · rw [List.filter_cons_of_pos hp, hfx] at h
        simp only [lastOpt, Option.some_inj] at h
        subst h
        simp [lastIdxP, hln, hp, idxOf]
      · rw [List.filter_cons_of_neg (by simpa using hp), hfx] at h
        cases h
    | cons b bs =>
      have hne : xs.filter P ≠ [] := by simp [hfx]
      have h2 : lastOpt (xs.filter P) = some g := by
        by_cases hp : P x
        · rw [List.filter_cons_of_pos hp, hfx] at h
          rw [hfx]
          exact h
        · rw [List.filter_cons_of_neg (by simpa using hp)] at h
          exact h
      have ih := lastIdxP_of_lastOpt_filter P xs g h2 hnd2
      have hgm : g.1 ∈ xs.map Prod.fst :=
        List.mem_map_of_mem Prod.fst
          (List.mem_of_mem_filter (lastOpt_mem (xs.filter P) g h2))
      have hxg : ¬ x.1 = g.1 := fun hc => hxnot (hc ▸ hgm)
      simp [lastIdxP, ih, idxOf, hxg]

/-- Claim C9: the timeline sort orders entries by timestamp ascending
with no secondary key and is stable — it permutes the input, is
pairwise ordered by timestamp, preserves the relative order of entries
sharing a timestamp key, and on A (ts = T), B (ts = T),
C (ts = T minus one minute) yields [C, A, B]. -/
theorem c9_sort_stable :
    (∀ l, (sortByDate l).Pairwise entryLe) ∧
    (∀ l, List.Perm (sortByDate l) l) ∧
    (∀ (l : List Entry) (k : Nat),
      (sortByDate l).filter (fun y => dtKey y.2 == k)
        = l.filter (fun y => dtKey y.2 == k)) ∧
    sortByDate [(0, dtFeb1), (1, dtFeb1), (2, dtFeb1m)]
      = [(2, dtFeb1m), (0, dtFeb1), (1, dtFeb1)] :=
  ⟨sortByDate_pairwise, sortByDate_perm, sortByDate_stable, by decide⟩

/-- Claim C6: when the image identifiers are pairwise distinct (as the
trip_image filenames are), the members the code computes for a page via
image_list.index on the filtered first and last paths are exactly the
inclusive slice of the sorted timeline from the first to the last
element whose week_index equals the page target — the spec-side
description — and the week_index formula maps day 1 and day 7 to 1,
day 8 to 2 and day 31 to 5. -/
theorem c6_page_members_slice :
    (∀ (s : List Entry) (p : Nat), (s.map Prod.fst).Nodup →
      pageMembers (s.map Prod.fst) s p = pageMembersSpec s p) ∧
    weekIndex ⟨2022, 1, 1, 0, 0⟩ = 1 ∧ weekIndex ⟨2022, 1, 7, 0, 0⟩ = 1 ∧
    weekIndex ⟨2022, 1, 8, 0, 0⟩ = 2 ∧ weekIndex ⟨2022, 1, 31, 0, 0⟩ = 5 := by
  refine ⟨?_, by decide, by decide, by decide, by decide⟩
  intro s p hnd
  cases hh : headOpt (s.filter (fun x => weekIndex x.2 == p)) with
  | none =>
    have hfe : s.filter (fun x => weekIndex x.2 == p) = [] :=
      (headOpt_eq_none_iff _).mp hh
    have hfi : firstIdxP (fun x => weekIndex x.2 == p) s = none :=
      (firstIdxP_eq_none_iff _ s).mpr hfe
    simp [pageMembers, pageMembersSpec, hfe, hfi, headOpt, lastOpt]
  | some f =>
    cases hl : lastOpt (s.filter (fun x => weekIndex x.2 == p)) with
    | none =>
      have hfe : s.filter (fun x => weekIndex x.2 == p) = [] :=
        (lastOpt_eq_none_iff _).mp hl
      rw [hfe] at hh
      cases hh
    | some g =>
      have hfi := firstIdxP_of_headOpt_filter (fun x => weekIndex x.2 == p) s f hh hnd
      have hli := lastIdxP_of_lastOpt_filter (fun x => weekIndex x.2 == p) s g hl hnd
      simp [pageMembers, pageMembersSpec, hh, hl, hfi, hli]

/-- Claim C6, witness: on the concrete distinct-identifier timeline the
code computation and the spec slice agree for page 1. -/
theorem c6_witness :
    pageMembers (tlC1.map Prod.fst) tlC1 1 = pageMembersSpec tlC1 1 :=
  c6_page_members_slice.1 tlC1 1 (by decide)
example : parseFmt1 "31/01/22, 14:00" = none := by decide
example : parseFmt2 "31/01/22, 14:00" = none := by decide
example : normalizeTimestamp "13/13/22, 25:00" = none := by decide
example : parseFmt1 "01/02/22, 1:00 PM" = some ⟨2022, 1, 2, 13, 0⟩ := by decide
example : normalizeTimestamp "03/04/22, 1:00 PM" = some ⟨2022, 3, 4, 13, 0⟩ := by decide
example : weekIndex ⟨2022, 1, 8, 0, 0⟩ = 2 := by decide
example : strftimeU ⟨2022, 1, 31, 14, 0⟩ = 5 := by decide
example : strftimeU ⟨2022, 2, 1, 10, 0⟩ = 5 := by decide
example : strftimeU ⟨2022, 2, 8, 10, 0⟩ = 6 := by decide
example : strftimeU ⟨2022, 1, 25, 10, 0⟩ = 4 := by decide
example : cropWindow 11 0 = (611, 1250) := by decide
